import Mathlib

/-!
Verification of the scoring engine of the Eco-Interact simulator
(`src/Streamlit_app.py`).  The three model functions
`plant_growth_index`, `animal_survival_prob` and `ecosystem_stability`
are pure arithmetic over slider-bounded inputs; we embed them over ℚ
(every constant in the source is an exact decimal) and prove the
spec's claims about ranges, monotonicity and concrete scenarios.
-/

namespace EcoInteract

/-- Embedding of `np.clip(x, lo, hi)`: equivalent to
`np.minimum(hi, np.maximum(x, lo))`. -/
def clip (x lo hi : ℚ) : ℚ := min (max x lo) hi

/-- The three-valued human disturbance selector
(`st.selectbox("Human disturbance level", ["Low", "Moderate", "High"])`). -/
inductive Disturbance where
| Low
| Moderate
| High

/-- Multiplicative disturbance penalty used by `animal_survival_prob`:
`d_factor = {"Low": 1.0, "Moderate": 0.8, "High": 0.6}[disturbance]`. -/
def d_factor : Disturbance → ℚ
| .Low => 1.0
| .Moderate => 0.8
| .High => 0.6

/-- Additive disturbance penalty used by `ecosystem_stability`:
`d_penalty = {"Low": 0, "Moderate": 10, "High": 25}[disturbance]`. -/
def d_penalty : Disturbance → ℚ
| .Low => 0
| .Moderate => 10
| .High => 25

/-- Temperature sub-score of `plant_growth_index`:
`t_score = max(0, 100 - abs(temp - 25) * 4)`. -/
def t_score (temp : ℚ) : ℚ := max 0 (100 - |temp - 25| * 4)

/-- CO₂ sub-score of `plant_growth_index`:
`c_score = np.clip((co2 - 250) / (1000 - 250) * 100, 0, 100)`. -/
def c_score (co2 : ℚ) : ℚ := clip ((co2 - 250) / (1000 - 250) * 100) 0 100

/-- Distance of `rainfall` from the zero-penalty band [50, 175] of the
rainfall sub-score, as written inline in the source:
`max(0, rainfall - 175) + max(0, 50 - rainfall)`. -/
def r_dist (rainfall : ℚ) : ℚ := max 0 (rainfall - 175) + max 0 (50 - rainfall)

/-- Rainfall sub-score of `plant_growth_index`:
`r_score = max(0, 100 - (max(0, rainfall - 175) + max(0, 50 - rainfall)) * 0.25)`. -/
def r_score (rainfall : ℚ) : ℚ := max 0 (100 - r_dist rainfall * 0.25)

/-- Humidity sub-score of `plant_growth_index`:
`h_score = max(0, 100 - abs(humidity - 60) * 1.5)`. -/
def h_score (humidity : ℚ) : ℚ := max 0 (100 - |humidity - 60| * 1.5)

/-- Soil-pH sub-score of `plant_growth_index`:
`ph_score = max(0, 100 - abs(soil_ph - 7.0) * 25)`. -/
def ph_score (soil_ph : ℚ) : ℚ := max 0 (100 - |soil_ph - 7.0| * 25)

/-- The plant growth index (`plant_growth_index` in the source):
weighted sum of the five sub-scores, clipped to [0, 100]. -/
def plant_growth_index (temp co2 rainfall humidity soil_ph : ℚ) : ℚ :=
clip (0.28 * t_score temp + 0.18 * c_score co2 + 0.22 * r_score rainfall
  + 0.17 * h_score humidity + 0.15 * ph_score soil_ph) 0 100

/-- Temperature sub-score of `animal_survival_prob`:
`t = max(0, 100 - abs(temp - 22) * 3)`. -/
def a_t_score (temp : ℚ) : ℚ := max 0 (100 - |temp - 22| * 3)

/-- Rainfall sub-score of `animal_survival_prob`:
`r = max(0, 100 - abs(rainfall - 120) * 0.3)`. -/
def a_r_score (rainfall : ℚ) : ℚ := max 0 (100 - |rainfall - 120| * 0.3)

/-- Humidity sub-score of `animal_survival_prob`:
`h = max(0, 100 - abs(humidity - 55) * 1.2)`. -/
def a_h_score (humidity : ℚ) : ℚ := max 0 (100 - |humidity - 55| * 1.2)

/-- The animal survival probability (`animal_survival_prob` in the source):
a blend of temperature/rainfall/humidity sub-scores, scaled by plant
availability and by the multiplicative disturbance factor, clipped to
[0, 100]. -/
def animal_survival_prob (temp rainfall humidity plant_index : ℚ)
    (disturbance : Disturbance) : ℚ :=
let base := 0.5 * (a_t_score temp + a_r_score rainfall) * 0.01
  + 0.5 * a_h_score humidity * 0.01
let base2 := base * (0.5 + 0.5 * (plant_index / 100))
clip (base2 * d_factor disturbance * 100) 0 100

/-- The ecosystem stability index (`ecosystem_stability` in the source):
mean of the plant and animal metrics minus the additive disturbance
penalty, clipped to [0, 100]. -/
def ecosystem_stability (plant_index animal_prob : ℚ)
    (disturbance : Disturbance) : ℚ :=
clip ((plant_index + animal_prob) / 2 - d_penalty disturbance) 0 100

/-! Helper lemmas about `clip` and distance-penalty scores. -/

lemma clip_nonneg (x : ℚ) : 0 ≤ clip x 0 100 :=
le_min (le_max_right x 0) (by norm_num)

lemma clip_le_hundred (x : ℚ) : clip x 0 100 ≤ 100 :=
min_le_right _ _

lemma clip_eq_self {x : ℚ} (h0 : 0 ≤ x) (h1 : x ≤ 100) : clip x 0 100 = x := by
unfold clip
rw [max_eq_left h0, min_eq_left h1]

lemma clip_mono {x y : ℚ} (h : x ≤ y) (lo hi : ℚ) : clip x lo hi ≤ clip y lo hi :=
min_le_min (max_le_max h le_rfl) le_rfl

lemma penalty_mono (c k : ℚ) (hk : 0 ≤ k) {d1 d2 : ℚ} (h : d1 ≤ d2) :
    max 0 (c - d2 * k) ≤ max 0 (c - d1 * k) :=
max_le_max le_rfl (by nlinarith)

lemma c_score_eq {z : ℚ} (h1 : 250 ≤ z) (h2 : z ≤ 1000) :
    c_score z = 100 - (1000 - z) * (2 / 15) := by
have he : (z - 250) / (1000 - 250) * 100 = 100 - (1000 - z) * (2 / 15) := by ring
unfold c_score clip
rw [he, max_eq_left (by linarith), min_eq_left (by linarith)]

lemma a_t_score_nonneg (temp : ℚ) : 0 ≤ a_t_score temp := le_max_left _ _

lemma a_r_score_nonneg (rainfall : ℚ) : 0 ≤ a_r_score rainfall := le_max_left _ _

lemma a_h_score_nonneg (humidity : ℚ) : 0 ≤ a_h_score humidity := le_max_left _ _

lemma asp_base_nonneg (temp rainfall humidity : ℚ) :
    0 ≤ 0.5 * (a_t_score temp + a_r_score rainfall) * 0.01
      + 0.5 * a_h_score humidity * 0.01 := by
have h1 := a_t_score_nonneg temp
have h2 := a_r_score_nonneg rainfall
have h3 := a_h_score_nonneg humidity
linarith

/-- C1: for every input with temp in [-10,50], co2 in [250,1000], rainfall in
[0,1000], humidity in [0,100], soil_ph in [3.5,9.0], any disturbance level,
and plant_index and animal_prob in [0,100], each of `plant_growth_index`,
`animal_survival_prob` and `ecosystem_stability` returns a value in [0,100]. -/
theorem indices_in_range (temp co2 rainfall humidity soil_ph plant_index animal_prob : ℚ)
    (d : Disturbance)
    (ht1 : -10 ≤ temp) (ht2 : temp ≤ 50)
    (hc1 : 250 ≤ co2) (hc2 : co2 ≤ 1000)
    (hr1 : 0 ≤ rainfall) (hr2 : rainfall ≤ 1000)
    (hh1 : 0 ≤ humidity) (hh2 : humidity ≤ 100)
    (hs1 : 3.5 ≤ soil_ph) (hs2 : soil_ph ≤ 9.0)
    (hp1 : 0 ≤ plant_index) (hp2 : plant_index ≤ 100)
    (ha1 : 0 ≤ animal_prob) (ha2 : animal_prob ≤ 100) :
    (0 ≤ plant_growth_index temp co2 rainfall humidity soil_ph
      ∧ plant_growth_index temp co2 rainfall humidity soil_ph ≤ 100)
    ∧ (0 ≤ animal_survival_prob temp rainfall humidity plant_index d
      ∧ animal_survival_prob temp rainfall humidity plant_index d ≤ 100)
    ∧ (0 ≤ ecosystem_stability plant_index animal_prob d
      ∧ ecosystem_stability plant_index animal_prob d ≤ 100) :=
⟨⟨clip_nonneg _, clip_le_hundred _⟩, ⟨clip_nonneg _, clip_le_hundred _⟩,
  ⟨clip_nonneg _, clip_le_hundred _⟩⟩

/-- Witness for C1 at the default slider values. -/
theorem indices_in_range_witness :
    (0 ≤ plant_growth_index 25 415 120 60 6.8
      ∧ plant_growth_index 25 415 120 60 6.8 ≤ 100)
    ∧ (0 ≤ animal_survival_prob 25 120 60 50 Disturbance.Moderate
      ∧ animal_survival_prob 25 120 60 50 Disturbance.Moderate ≤ 100)
    ∧ (0 ≤ ecosystem_stability 50 50 Disturbance.Moderate
      ∧ ecosystem_stability 50 50 Disturbance.Moderate ≤ 100) :=
indices_in_range 25 415 120 60 6.8 50 50 Disturbance.Moderate
  (by norm_num) (by norm_num) (by norm_num) (by norm_num) (by norm_num)
  (by norm_num) (by norm_num) (by norm_num) (by norm_num) (by norm_num)
  (by norm_num) (by norm_num) (by norm_num) (by norm_num)

/-- C2 counterexample: at the all-minimum, maximally off-optimum input
(-10, 250, 0, 0, 3.5), `plant_growth_index` does NOT return 0: the rainfall,
humidity and soil-pH sub-scores are still positive there. -/
theorem pgi_all_min_not_zero : ¬ plant_growth_index (-10) 250 0 0 3.5 = 0 := by
norm_num [plant_growth_index, clip, t_score, c_score, r_score, r_dist, h_score,
  ph_score, abs_eq_max_neg, max_def, min_def]

/-- C2 amended: `plant_growth_index(-10, 250, 0, 0, 3.5)` returns exactly
913/40 = 22.825 (so in particular it does not go negative and the lower clamp
is not active). -/
theorem pgi_all_min_value :
    plant_growth_index (-10) 250 0 0 3.5 = 913 / 40
    ∧ 0 ≤ plant_growth_index (-10) 250 0 0 3.5 := by
constructor
· norm_num [plant_growth_index, clip, t_score, c_score, r_score, r_dist, h_score,
    ph_score, abs_eq_max_neg, max_def, min_def]
· exact clip_nonneg _

/-- C3: `ecosystem_stability` equals the arithmetic mean of its two inputs
minus the additive penalty 0 / 10 / 25 for Low / Moderate / High disturbance,
clamped to [0,100]. -/
theorem ecosystem_stability_formula (plant_index animal_prob : ℚ) (d : Disturbance) :
    ecosystem_stability plant_index animal_prob d =
      clip ((plant_index + animal_prob) / 2 -
        (match d with
        | .Low => 0
        | .Moderate => 10
        | .High => 25)) 0 100 := by
cases d <;> rfl

/-- C4: `animal_survival_prob` equals its blended temperature/rainfall/humidity
base score, multiplied by the habitat factor 0.5 + 0.5·(plant_index/100),
multiplied by the disturbance multiplier 1.0 / 0.8 / 0.6 for
Low / Moderate / High, with the result clamped to [0,100]. -/
theorem animal_survival_prob_formula (temp rainfall humidity plant_index : ℚ)
    (d : Disturbance) :
    animal_survival_prob temp rainfall humidity plant_index d =
      clip ((0.5 * (a_t_score temp + a_r_score rainfall) * 0.01
          + 0.5 * a_h_score humidity * 0.01)
        * (0.5 + 0.5 * (plant_index / 100))
        * (match d with
          | .Low => 1.0
          | .Moderate => 0.8
          | .High => 0.6) * 100) 0 100 := by
cases d <;> rfl

/-- C5: each of the five sub-scores of `plant_growth_index` is non-increasing
in the distance of its factor from the formula's optimum: the point 25 for
temperature, 60 for humidity and 7 for soil pH; the band [50,175] for rainfall
(distance `r_dist`); and for CO₂ — whose score saturates at the top of the
declared domain [250,1000] — the distance from 1000, on that domain. -/
theorem sub_scores_monotone :
    (∀ x y : ℚ, |x - 25| ≤ |y - 25| → t_score y ≤ t_score x)
    ∧ (∀ x y : ℚ, 250 ≤ x → x ≤ 1000 → 250 ≤ y → y ≤ 1000 →
        |x - 1000| ≤ |y - 1000| → c_score y ≤ c_score x)
    ∧ (∀ x y : ℚ, r_dist x ≤ r_dist y → r_score y ≤ r_score x)
    ∧ (∀ x y : ℚ, |x - 60| ≤ |y - 60| → h_score y ≤ h_score x)
    ∧ (∀ x y : ℚ, |x - 7| ≤ |y - 7| → ph_score y ≤ ph_score x) := by
refine ⟨?_, ?_, ?_, ?_, ?_⟩
· intro x y h
  unfold t_score
  exact penalty_mono 100 4 (by norm_num) h
· intro x y hx1 hx2 hy1 hy2 h
  rw [c_score_eq hx1 hx2, c_score_eq hy1 hy2]
  rw [abs_of_nonpos (by linarith : x - 1000 ≤ 0),
    abs_of_nonpos (by linarith : y - 1000 ≤ 0)] at h
  linarith
· intro x y h
  unfold r_score
  exact penalty_mono 100 0.25 (by norm_num) h
· intro x y h
  unfold h_score
  exact penalty_mono 100 1.5 (by norm_num) h
· intro x y h
  unfold ph_score
  have h7 : (7.0 : ℚ) = 7 := by norm_num
  rw [h7]
  exact penalty_mono 100 25 (by norm_num) h

/-- Witness for C5: concrete further-from-optimum comparisons on every axis. -/
theorem sub_scores_monotone_witness :
    t_score 35 ≤ t_score 30 ∧ c_score 300 ≤ c_score 400
    ∧ r_score 400 ≤ r_score 200 ∧ h_score 90 ≤ h_score 70
    ∧ ph_score 4 ≤ ph_score 6 :=
⟨sub_scores_monotone.1 30 35 (by norm_num [abs_eq_max_neg, max_def]),
  sub_scores_monotone.2.1 400 300 (by norm_num) (by norm_num) (by norm_num)
    (by norm_num) (by norm_num [abs_eq_max_neg, max_def]),
  sub_scores_monotone.2.2.1 200 400 (by norm_num [r_dist, max_def]),
  sub_scores_monotone.2.2.2.1 70 90 (by norm_num [abs_eq_max_neg, max_def]),
  sub_scores_monotone.2.2.2.2 6 4 (by norm_num [abs_eq_max_neg, max_def])⟩

/-- C6: holding all other inputs fixed, `animal_survival_prob` and
`ecosystem_stability` are non-increasing as the disturbance level moves
Low → Moderate → High. -/
theorem disturbance_monotone (temp rainfall humidity plant_index animal_prob : ℚ)
    (hpi : 0 ≤ plant_index) :
    (animal_survival_prob temp rainfall humidity plant_index .High
        ≤ animal_survival_prob temp rainfall humidity plant_index .Moderate
      ∧ animal_survival_prob temp rainfall humidity plant_index .Moderate
        ≤ animal_survival_prob temp rainfall humidity plant_index .Low)
    ∧ (ecosystem_stability plant_index animal_prob .High
        ≤ ecosystem_stability plant_index animal_prob .Moderate
      ∧ ecosystem_stability plant_index animal_prob .Moderate
        ≤ ecosystem_stability plant_index animal_prob .Low) := by
have hbase := asp_base_nonneg temp rainfall humidity
have hhab : (0 : ℚ) ≤ 0.5 + 0.5 * (plant_index / 100) := by linarith
have hb2 := mul_nonneg hbase hhab
refine ⟨⟨?_, ?_⟩, ?_, ?_⟩
· simp only [animal_survival_prob, d_factor]
  exact clip_mono (by nlinarith) _ _
· simp only [animal_survival_prob, d_factor]
  exact clip_mono (by nlinarith) _ _
· simp only [ecosystem_stability, d_penalty]
  exact clip_mono (by linarith) _ _
· simp only [ecosystem_stability, d_penalty]
  exact clip_mono (by linarith) _ _

/-- Witness for C6 at a concrete mid-range input. -/
theorem disturbance_monotone_witness :
    (animal_survival_prob 25 120 60 80 .High
        ≤ animal_survival_prob 25 120 60 80 .Moderate
      ∧ animal_survival_prob 25 120 60 80 .Moderate
        ≤ animal_survival_prob 25 120 60 80 .Low)
    ∧ (ecosystem_stability 80 50 .High ≤ ecosystem_stability 80 50 .Moderate
      ∧ ecosystem_stability 80 50 .Moderate ≤ ecosystem_stability 80 50 .Low) :=
disturbance_monotone 25 120 60 80 50 (by norm_num)

/-- C7: `plant_growth_index(25, 415, 120, 60, 6.8)` — near-optimal on every
axis — is strictly greater than 80 (its exact value is 85.21). -/
theorem pgi_near_optimal_exceeds_80 : plant_growth_index 25 415 120 60 6.8 > 80 := by
norm_num [plant_growth_index, clip, t_score, c_score, r_score, r_dist, h_score,
  ph_score, abs_eq_max_neg, max_def, min_def]

/-- C8: `plant_growth_index` is the convex combination of its five sub-scores
with weights (0.28, 0.18, 0.22, 0.17, 0.15), which sum exactly to 1, the
weighted sum then being clamped to [0,100]. -/
theorem pgi_convex_combination :
    ((0.28 : ℚ) + 0.18 + 0.22 + 0.17 + 0.15 = 1)
    ∧ ∀ temp co2 rainfall humidity soil_ph : ℚ,
        plant_growth_index temp co2 rainfall humidity soil_ph =
          clip (0.28 * t_score temp + 0.18 * c_score co2 + 0.22 * r_score rainfall
            + 0.17 * h_score humidity + 0.15 * ph_score soil_ph) 0 100 :=
⟨by norm_num, fun _ _ _ _ _ => rfl⟩

/-- C9: holding temperature, rainfall, humidity and disturbance fixed,
`animal_survival_prob` is non-decreasing in the plant index over [0,100]. -/
theorem asp_monotone_in_plant_index (temp rainfall humidity p1 p2 : ℚ)
    (d : Disturbance) (h0 : 0 ≤ p1) (h12 : p1 ≤ p2) (h2 : p2 ≤ 100) :
    animal_survival_prob temp rainfall humidity p1 d
      ≤ animal_survival_prob temp rainfall humidity p2 d := by
have hbase := asp_base_nonneg temp rainfall humidity
have hd : 0 ≤ p2 - p1 := by linarith
have hkey := mul_nonneg hbase hd
simp only [animal_survival_prob]
refine clip_mono ?_ _ _
cases d <;> simp only [d_factor] <;> nlinarith

/-- Witness for C9: raising the plant index from 40 to 70 does not lower the
survival probability. -/
theorem asp_monotone_in_plant_index_witness :
    animal_survival_prob 25 120 60 40 .Moderate
      ≤ animal_survival_prob 25 120 60 70 .Moderate :=
asp_monotone_in_plant_index 25 120 60 40 70 .Moderate (by norm_num) (by norm_num)
  (by norm_num)

/-- C10: with Low disturbance and both inputs in [0,100], `ecosystem_stability`
is exactly the unmodified mean of its two inputs — neither clamp is active. -/
theorem ecosystem_stability_low_is_mean (plant_index animal_prob : ℚ)
    (hp1 : 0 ≤ plant_index) (hp2 : plant_index ≤ 100)
    (ha1 : 0 ≤ animal_prob) (ha2 : animal_prob ≤ 100) :
    ecosystem_stability plant_index animal_prob .Low
      = (plant_index + animal_prob) / 2 := by
unfold ecosystem_stability
have hd : d_penalty .Low = 0 := rfl
rw [hd, sub_zero]
exact clip_eq_self (by linarith) (by linarith)

/-- Witness for C10 at (30, 70): the Low-disturbance stability is their mean. -/
theorem ecosystem_stability_low_is_mean_witness :
    ecosystem_stability 30 70 .Low = (30 + 70) / 2 :=
ecosystem_stability_low_is_mean 30 70 (by norm_num) (by norm_num) (by norm_num)
  (by norm_num)

end EcoInteract
